import Mathlib

/-!
Shallow embedding of the spotify-mcp-server (src/index.js): token lifecycle
(loadTokens, refreshAccessToken, ensureValidToken), the API gateway
(makeSpotifyRequest with its single 401-triggered refresh-and-retry), the
twelve tool handlers and the dispatch boundary (setupHandlers), and the
interactive authentication flow (authenticate).

Modelling conventions:
- JavaScript `null`/`undefined` token fields become `Option`; JS truthiness
  of a string-valued field is `jsTruthy` (absent or empty string is falsy).
- A JS `Date` is `JsDate`: either a valid instant (milliseconds since epoch,
  as `Int`) or an Invalid Date (NaN time value); `new Date() >= d` is false
  for an Invalid Date, and any Date object is truthy.
- The remote servers are an environment: `refreshResp` is the outcome the
  token endpoint gives to a refresh POST, `apiResp i` the outcome of the
  i-th upstream API call of one request. Axios resolves on 2xx and throws
  otherwise (carrying `response.status` when a response exists).
- The parsed JSON document of a 2xx response is modelled as `ApiData`: its
  pretty-serialized text (what `JSON.stringify(data, null, 2)` yields) and
  the string interpolation of its `id` property (used by createPlaylist).
-/

/-- A JavaScript Date: a valid instant in ms since epoch, or Invalid Date. -/
inductive JsDate where
  | valid (ms : Int)
  | invalid
deriving DecidableEq, Repr

/-- Truthiness of a JS string-or-nullish value: null/undefined and the empty
string are falsy. -/
def jsTruthy : Option String → Bool
  | none => false
  | some s => !(s == "")

/-- A Date object is truthy whether or not it is valid; null is falsy. -/
def dateTruthy : Option JsDate → Bool
  | none => false
  | some _ => true

/-- The comparison `new Date() >= d` at current time `now`: ms comparison for
a valid Date, false for an Invalid Date (NaN never compares). -/
def nowGeExpiry (now : Int) : JsDate → Bool
  | .valid ms => decide (ms ≤ now)
  | .invalid => false

/-- A JS argument value as the handlers consume it: undefined, null, a
primitive carrying its `toString` rendering, or an array of strings. -/
inductive JsValue where
  | undefined
  | null
  | prim (s : String)
  | arr (elems : List String)
deriving DecidableEq, Repr

/-- JS `String(v)` / template-literal interpolation. -/
def JsValue.toStr : JsValue → String
  | .undefined => "undefined"
  | .null => "null"
  | .prim s => s
  | .arr xs => String.intercalate "," xs

/-- The test `value === undefined || value === null`. -/
def JsValue.isNullish : JsValue → Bool
  | .undefined => true
  | .null => true
  | _ => false

/-- A JS default parameter: the default replaces the argument exactly when
the argument is undefined. -/
def jsDefault (v : JsValue) (d : JsValue) : JsValue :=
  match v with
  | .undefined => d
  | _ => v

/-- A tool invocation's argument object, as ordered key/value entries. -/
abbrev Args := List (String × JsValue)

/-- Property access `args.k`: undefined when the key is absent. -/
def Args.get (args : Args) (k : String) : JsValue :=
  match args.find? (fun kv => kv.1 == k) with
  | some kv => kv.2
  | none => .undefined

/-- In-memory token state of the server object (fields set in the
constructor, lines 56-58 of index.js). -/
structure TokenState where
  accessToken : Option String
  refreshToken : Option String
  tokenExpiry : Option JsDate
deriving DecidableEq, Repr

/-- The constructor's initial state: all three fields null. -/
def initialState : TokenState :=
  { accessToken := none, refreshToken := none, tokenExpiry := none }

/-- The on-disk token file as loadTokens sees it: absent, unparseable, or
parsed JSON whose fields may each be missing; `expiresAt` is the Date that
`new Date(tokens.expires_at)` produced. -/
inductive TokenFile where
  | missing
  | corrupt
  | parsed (access : Option String) (refresh : Option String) (expiresAt : JsDate)
deriving DecidableEq, Repr

/-- loadTokens (index.js lines 64-75): a missing file is skipped; a parse
failure is caught and logged, leaving the state unchanged; a parsed file
overwrites all three fields. Total: it never raises. -/
def loadTokens (f : TokenFile) (st : TokenState) : TokenState :=
  match f with
  | .missing => st
  | .corrupt => st
  | .parsed a r e => { accessToken := a, refreshToken := r, tokenExpiry := some e }

/-- Body of a successful token-endpoint refresh response. -/
structure RefreshResponse where
  access_token : String
  expires_in : Int
  refresh_token : Option String
deriving DecidableEq, Repr

/-- The parsed JSON document of a 2xx upstream response: its pretty-printed
serialization and the interpolation of its `id` property. -/
structure ApiData where
  text : String
  id : String
deriving DecidableEq, Repr

/-- Outcome of one axios call against the upstream API: resolves on 2xx,
rejects with `response.status` on other statuses, rejects with no response
on a network failure. -/
inductive AxiosResult where
  | success (data : ApiData)
  | httpError (status : Nat) (msg : String)
  | netError (msg : String)
deriving DecidableEq, Repr

/-- An error value flowing to the dispatch boundary: a plain Error, or an
axios error carrying `response?.status`. `message` in both cases. -/
inductive SpotifyError where
  | jsError (msg : String)
  | axiosError (status : Option Nat) (msg : String)
deriving DecidableEq, Repr

/-- The `error.message` property. -/
def SpotifyError.message : SpotifyError → String
  | .jsError m => m
  | .axiosError _ m => m

/-- The environment of one request: the current time, the token endpoint's
response to a refresh POST, and the upstream API's response to the i-th
call made while handling this invocation. -/
structure SpotifyEnv where
  now : Int
  refreshResp : Except String RefreshResponse
  apiResp : Nat → AxiosResult

/-- refreshAccessToken (index.js lines 86-117): fails when no refresh token
is held; otherwise POSTs to the token endpoint. On success it stores the
new access token, computes expiry as now + expires_in seconds, and replaces
the refresh token only when the response carries a truthy one. A failed
POST leaves the state untouched and raises. -/
def refreshAccessToken (env : SpotifyEnv) (st : TokenState) : Except String TokenState :=
  if !jsTruthy st.refreshToken then
    .error "No refresh token available. Please re-authenticate."
  else
    match env.refreshResp with
    | .error msg => .error ("Failed to refresh token: " ++ msg)
    | .ok resp =>
      .ok { accessToken := some resp.access_token
            tokenExpiry := some (.valid (env.now + resp.expires_in * 1000))
            refreshToken :=
              if jsTruthy resp.refresh_token then resp.refresh_token else st.refreshToken }

/-- ensureValidToken (index.js lines 119-127): raises when no access token
is held; refreshes when an expiry Date is recorded and the current time has
reached it (an Invalid Date never triggers). The second component counts
refresh attempts (0 or 1). -/
def ensureValidToken (env : SpotifyEnv) (st : TokenState) :
    Except String TokenState × Nat :=
  if !jsTruthy st.accessToken then
    (.error "No access token. Please authenticate first using the spotify_authenticate tool.", 0)
  else
    match st.tokenExpiry with
    | none => (.ok st, 0)
    | some d =>
      if nowGeExpiry env.now d then (refreshAccessToken env st, 1) else (.ok st, 0)

/-- Decidable equality on Except, needed so concrete runs can be settled by
`decide`. -/
instance exceptDecEq {e : Type} {a : Type} [DecidableEq e] [DecidableEq a] :
    DecidableEq (Except e a) := fun x y =>
  match x, y with
  | .ok u, .ok v =>
    if h : u = v then .isTrue (by rw [h]) else .isFalse (by intro hc; cases hc; exact h rfl)
  | .error u, .error v =>
    if h : u = v then .isTrue (by rw [h]) else .isFalse (by intro hc; cases hc; exact h rfl)
  | .ok _, .error _ => .isFalse (by intro hc; cases hc)
  | .error _, .ok _ => .isFalse (by intro hc; cases hc)

/-- Trace of one makeSpotifyRequest call: its result, the token state it
leaves behind, how many refresh attempts it made, and the endpoint of every
upstream API call it issued, in order. -/
structure RequestOutcome where
  result : Except SpotifyError ApiData
  state : TokenState
  refreshes : Nat
  apiCalls : List String
deriving DecidableEq, Repr

/-- makeSpotifyRequest (index.js lines 129-153): ensure a valid token, call
the endpoint; on a 401 rejection refresh once unconditionally and retry the
call exactly once, outside any further catch, so a second failure (or a
failed refresh) propagates; any other rejection propagates immediately. -/
def makeSpotifyRequest (env : SpotifyEnv) (st : TokenState) (endpoint : String) :
    RequestOutcome :=
  match ensureValidToken env st with
  | (.error e, r) => { result := .error (.jsError e), state := st, refreshes := r, apiCalls := [] }
  | (.ok st1, r) =>
    match env.apiResp 0 with
    | .success d => { result := .ok d, state := st1, refreshes := r, apiCalls := [endpoint] }
    | .netError m =>
      { result := .error (.axiosError none m), state := st1, refreshes := r, apiCalls := [endpoint] }
    | .httpError status m =>
      if status = 401 then
        match refreshAccessToken env st1 with
        | .error e =>
          { result := .error (.jsError e), state := st1, refreshes := r + 1, apiCalls := [endpoint] }
        | .ok st2 =>
          match env.apiResp 1 with
          | .success d =>
            { result := .ok d, state := st2, refreshes := r + 1, apiCalls := [endpoint, endpoint] }
          | .netError m2 =>
            { result := .error (.axiosError none m2), state := st2, refreshes := r + 1,
              apiCalls := [endpoint, endpoint] }
          | .httpError s2 m2 =>
            { result := .error (.axiosError (some s2) m2), state := st2, refreshes := r + 1,
              apiCalls := [endpoint, endpoint] }
      else
        { result := .error (.axiosError (some status) m), state := st1, refreshes := r,
          apiCalls := [endpoint] }

/-- An uppercase hex digit. -/
def hexDigitChar (n : Nat) : Char :=
  if n < 10 then Char.ofNat (48 + n) else Char.ofNat (55 + n)

/-- Percent-encoding of one byte, uppercase hex. -/
def percentByte (b : Nat) : String :=
  "%" ++ String.mk [hexDigitChar (b / 16 % 16), hexDigitChar (b % 16)]

/-- UTF-8 byte sequence of a character. -/
def utf8Bytes (c : Char) : List Nat :=
  let n := c.toNat
  if n < 128 then [n]
  else if n < 2048 then [192 + n / 64, 128 + n % 64]
  else if n < 65536 then [224 + n / 4096, 128 + n / 64 % 64, 128 + n % 64]
  else [240 + n / 262144, 128 + n / 4096 % 64, 128 + n / 64 % 64, 128 + n % 64]

/-- Characters the application/x-www-form-urlencoded serializer leaves
as-is: ASCII alphanumerics and * - . _ . -/
def formUnreservedChar (c : Char) : Bool :=
  c.isAlphanum || c = Char.ofNat 42 || c = Char.ofNat 45 ||
    c = Char.ofNat 46 || c = Char.ofNat 95

/-- One character under the URLSearchParams serializer: space becomes +,
unreserved characters stay, everything else is percent-encoded by UTF-8
byte. -/
def formEncodeChar (c : Char) : String :=
  if c = Char.ofNat 32 then "+"
  else if formUnreservedChar c then String.singleton c
  else String.join ((utf8Bytes c).map percentByte)

/-- URLSearchParams serialization of one string. -/
def formEncode (s : String) : String :=
  String.join (s.data.map formEncodeChar)

/-- `URLSearchParams.toString()` over an ordered pair list. -/
def urlSearchParamsToString (pairs : List (String × String)) : String :=
  String.intercalate "&" (pairs.map (fun p => formEncode p.1 ++ "=" ++ formEncode p.2))

/-- Characters `encodeURIComponent` leaves as-is: alphanumerics and
- _ . ! ~ * ( ) and the apostrophe. -/
def uriComponentUnreservedChar (c : Char) : Bool :=
  c.isAlphanum || c = Char.ofNat 45 || c = Char.ofNat 95 || c = Char.ofNat 46 ||
    c = Char.ofNat 33 || c = Char.ofNat 126 || c = Char.ofNat 42 ||
    c = Char.ofNat 39 || c = Char.ofNat 40 || c = Char.ofNat 41

/-- JS `encodeURIComponent`. -/
def encodeURIComponent (s : String) : String :=
  String.join (s.data.map (fun c =>
    if uriComponentUnreservedChar c then String.singleton c
    else String.join ((utf8Bytes c).map percentByte)))

/-- One item of a tool-result content array. -/
structure ContentItem where
  type : String
  text : String
deriving DecidableEq, Repr

/-- The result envelope every handler and the dispatch boundary produce. -/
structure ToolResult where
  content : List ContentItem
deriving DecidableEq, Repr

/-- The single-text envelope shape every handler builds literally. -/
def textEnvelope (s : String) : ToolResult :=
  { content := [{ type := "text", text := s }] }

/-- The dispatch boundary's catch clause (index.js lines 428-437). -/
def errorEnvelope (msg : String) : ToolResult :=
  textEnvelope ("Error: " ++ msg)

/-- Trace of one tool handler: its result (a ToolResult, or the error that
will reach the dispatch boundary's catch), the token state it leaves, its
refresh attempts, and the upstream endpoints it called. -/
structure HandlerOutcome where
  result : Except SpotifyError ToolResult
  state : TokenState
  refreshes : Nat
  apiCalls : List String
deriving DecidableEq, Repr

/-- Wrap a gateway outcome the way every fetching handler does: a single
text item holding the serialized response document. -/
def wrapJson (o : RequestOutcome) : HandlerOutcome :=
  { result := o.result.map (fun d => textEnvelope d.text)
    state := o.state, refreshes := o.refreshes, apiCalls := o.apiCalls }

/-- Environment after the first n upstream calls have been consumed, for a
handler that issues a second gateway request. -/
def shiftEnv (env : SpotifyEnv) (n : Nat) : SpotifyEnv :=
  { env with apiResp := fun i => env.apiResp (i + n) }

/-- getUserProfile (index.js lines 512-522). -/
def getUserProfile (env : SpotifyEnv) (st : TokenState) : HandlerOutcome :=
  wrapJson (makeSpotifyRequest env st "/me")

/-- getTopTracks (index.js lines 524-534), default parameters
medium_term / 20. -/
def getTopTracks (env : SpotifyEnv) (st : TokenState) (timeRange limit : JsValue) :
    HandlerOutcome :=
  let tr := jsDefault timeRange (.prim "medium_term")
  let lim := jsDefault limit (.prim "20")
  wrapJson (makeSpotifyRequest env st
    ("/me/top/tracks?time_range=" ++ tr.toStr ++ "&limit=" ++ lim.toStr))

/-- getTopArtists (index.js lines 536-546). -/
def getTopArtists (env : SpotifyEnv) (st : TokenState) (timeRange limit : JsValue) :
    HandlerOutcome :=
  let tr := jsDefault timeRange (.prim "medium_term")
  let lim := jsDefault limit (.prim "20")
  wrapJson (makeSpotifyRequest env st
    ("/me/top/artists?time_range=" ++ tr.toStr ++ "&limit=" ++ lim.toStr))

/-- getRecentlyPlayed (index.js lines 548-558). -/
def getRecentlyPlayed (env : SpotifyEnv) (st : TokenState) (limit : JsValue) :
    HandlerOutcome :=
  let lim := jsDefault limit (.prim "20")
  wrapJson (makeSpotifyRequest env st ("/me/player/recently-played?limit=" ++ lim.toStr))

/-- searchTracks (index.js lines 560-570). -/
def searchTracks (env : SpotifyEnv) (st : TokenState) (query limit : JsValue) :
    HandlerOutcome :=
  let lim := jsDefault limit (.prim "20")
  wrapJson (makeSpotifyRequest env st
    ("/search?q=" ++ encodeURIComponent query.toStr ++ "&type=track&limit=" ++ lim.toStr))

/-- `v.join(",")`: joins an array, raises a TypeError on anything else. -/
def jsJoinComma : JsValue → Except SpotifyError String
  | .arr xs => .ok (String.intercalate "," xs)
  | .undefined => .error (.jsError "Cannot read properties of undefined (reading join)")
  | .null => .error (.jsError "Cannot read properties of null (reading join)")
  | .prim _ => .error (.jsError "join is not a function")

/-- getTrackFeatures (index.js lines 572-582): the join happens while the
endpoint template is built, before any upstream call. -/
def getTrackFeatures (env : SpotifyEnv) (st : TokenState) (trackIds : JsValue) :
    HandlerOutcome :=
  match jsJoinComma trackIds with
  | .error e => { result := .error e, state := st, refreshes := 0, apiCalls := [] }
  | .ok joined => wrapJson (makeSpotifyRequest env st ("/audio-features?ids=" ++ joined))

/-- getPlaylists (index.js lines 584-594). -/
def getPlaylists (env : SpotifyEnv) (st : TokenState) (limit : JsValue) : HandlerOutcome :=
  let lim := jsDefault limit (.prim "20")
  wrapJson (makeSpotifyRequest env st ("/me/playlists?limit=" ++ lim.toStr))

/-- getPlaylistTracks (index.js lines 596-606), default limit 50. -/
def getPlaylistTracks (env : SpotifyEnv) (st : TokenState) (playlistId limit : JsValue) :
    HandlerOutcome :=
  let lim := jsDefault limit (.prim "50")
  wrapJson (makeSpotifyRequest env st
    ("/playlists/" ++ playlistId.toStr ++ "/tracks?limit=" ++ lim.toStr))

/-- createPlaylist (index.js lines 608-626): resolves the profile first,
then creates the playlist under the resolved user id; the request body
(name, description defaulting to empty, public defaulting to false) does
not affect the modelled trace. -/
def createPlaylist (env : SpotifyEnv) (st : TokenState) : HandlerOutcome :=
  let first := makeSpotifyRequest env st "/me"
  match first.result with
  | .error e =>
    { result := .error e, state := first.state, refreshes := first.refreshes,
      apiCalls := first.apiCalls }
  | .ok profile =>
    let second := makeSpotifyRequest (shiftEnv env first.apiCalls.length) first.state
      ("/users/" ++ profile.id ++ "/playlists")
    { result := second.result.map (fun d => textEnvelope d.text)
      state := second.state
      refreshes := first.refreshes + second.refreshes
      apiCalls := first.apiCalls ++ second.apiCalls }

/-- addTracksToPlaylist (index.js lines 628-643): one POST; the uris travel
in the request body, not the endpoint. -/
def addTracksToPlaylist (env : SpotifyEnv) (st : TokenState) (playlistId : JsValue) :
    HandlerOutcome :=
  wrapJson (makeSpotifyRequest env st ("/playlists/" ++ playlistId.toStr ++ "/tracks"))

/-- Body of the forEach loop of getRecommendations (index.js lines
648-656): skip an entry whose value is undefined or null, append an array
joined by commas, append anything else via toString. -/
def recAppend (acc : List (String × String)) (kv : String × JsValue) :
    List (String × String) :=
  if kv.2.isNullish then acc
  else
    match kv.2 with
    | .arr xs => acc ++ [(kv.1, String.intercalate "," xs)]
    | v => acc ++ [(kv.1, v.toStr)]

/-- The pair list the forEach loop of getRecommendations appends to the
URLSearchParams object. -/
def recommendationParams (params : Args) : List (String × String) :=
  params.foldl recAppend []

/-- One entry's contribution to the query, as an Option. -/
def recEntry (kv : String × JsValue) : Option (String × String) :=
  if kv.2.isNullish then none else some (kv.1, kv.2.toStr)

/-- The query string getRecommendations sends upstream. -/
def recommendationsQuery (params : Args) : String :=
  urlSearchParamsToString (recommendationParams params)

/-- getRecommendations (index.js lines 645-667): builds the query from the
raw argument object and issues one gateway request. -/
def getRecommendations (env : SpotifyEnv) (st : TokenState) (params : Args) :
    HandlerOutcome :=
  wrapJson (makeSpotifyRequest env st ("/recommendations?" ++ recommendationsQuery params))

/-- What the local callback listener observes during one authentication
flow: a redirect carrying an error parameter, a redirect carrying an
authorization code, or no callback before the 5-minute timeout fires. -/
inductive AuthCallback where
  | errorParam (err : String)
  | code (c : String)
  | timeout
deriving DecidableEq, Repr

/-- Body of a successful authorization-code exchange response. -/
structure ExchangeResponse where
  access_token : String
  refresh_token : Option String
  expires_in : Int
deriving DecidableEq, Repr

/-- Environment of one authentication flow: the current time, the callback
the listener receives, and the token endpoint's answer to the code
exchange. -/
structure AuthEnv where
  now : Int
  callback : AuthCallback
  exchangeResp : Except SpotifyError ExchangeResponse

/-- Settlement of one authentication flow: what the waiting caller receives,
the token state left behind, and whether `server.close()` had been called
by the time the caller's promise settled. -/
structure AuthOutcome where
  result : Except SpotifyError ToolResult
  state : TokenState
  listenerClosed : Bool
deriving DecidableEq, Repr

/-- authenticate (index.js lines 441-510). An error query parameter rejects
without closing the listener; the timeout closes the listener then rejects;
a code is exchanged at the token endpoint: success stores the tokens,
closes the listener and resolves, while a failed exchange rejects with the
raw error and does not close the listener (only the later global timeout
reclaims it). -/
def authenticate (aenv : AuthEnv) (st : TokenState) : AuthOutcome :=
  match aenv.callback with
  | .errorParam e =>
    { result := .error (.jsError ("Authentication failed: " ++ e)), state := st,
      listenerClosed := false }
  | .timeout =>
    { result := .error (.jsError "Authentication timeout"), state := st,
      listenerClosed := true }
  | .code _ =>
    match aenv.exchangeResp with
    | .error e => { result := .error e, state := st, listenerClosed := false }
    | .ok resp =>
      { result := .ok (textEnvelope
          "Successfully authenticated with Spotify! You can now use all Spotify tools.")
        state := { accessToken := some resp.access_token
                   refreshToken := resp.refresh_token
                   tokenExpiry := some (.valid (aenv.now + resp.expires_in * 1000)) }
        listenerClosed := true }

/-- View an authentication settlement as a handler outcome at the dispatch
boundary. -/
def authToHandler (o : AuthOutcome) : HandlerOutcome :=
  { result := o.result, state := o.state, refreshes := 0, apiCalls := [] }

/-- The twelve tool names of the registry (index.js lines 156-394). -/
def toolNames : List String :=
  ["spotify_authenticate", "get_user_profile", "get_top_tracks", "get_top_artists",
   "get_recently_played", "search_tracks", "get_track_features", "get_playlists",
   "get_playlist_tracks", "create_playlist", "add_tracks_to_playlist",
   "get_recommendations"]

/-- The switch inside the CallTool handler (index.js lines 400-427): a
direct name lookup routing to the handler with the raw arguments; the
default case throws the unknown-tool Error. -/
def dispatchTool (env : SpotifyEnv) (aenv : AuthEnv) (st : TokenState)
    (name : String) (args : Args) : HandlerOutcome :=
  if name = "spotify_authenticate" then authToHandler (authenticate aenv st)
  else if name = "get_user_profile" then getUserProfile env st
  else if name = "get_top_tracks" then
    getTopTracks env st (args.get "time_range") (args.get "limit")
  else if name = "get_top_artists" then
    getTopArtists env st (args.get "time_range") (args.get "limit")
  else if name = "get_recently_played" then getRecentlyPlayed env st (args.get "limit")
  else if name = "search_tracks" then
    searchTracks env st (args.get "query") (args.get "limit")
  else if name = "get_track_features" then getTrackFeatures env st (args.get "track_ids")
  else if name = "get_playlists" then getPlaylists env st (args.get "limit")
  else if name = "get_playlist_tracks" then
    getPlaylistTracks env st (args.get "playlist_id") (args.get "limit")
  else if name = "create_playlist" then createPlaylist env st
  else if name = "add_tracks_to_playlist" then
    addTracksToPlaylist env st (args.get "playlist_id")
  else if name = "get_recommendations" then getRecommendations env st args
  else
    { result := .error (.jsError ("Unknown tool: " ++ name)), state := st,
      refreshes := 0, apiCalls := [] }

/-- The whole CallTool request handler (index.js lines 396-438): run the
switch inside try, and convert any thrown error into the uniform
`Error: message` text envelope. -/
def handleCallTool (env : SpotifyEnv) (aenv : AuthEnv) (st : TokenState)
    (name : String) (args : Args) : ToolResult × TokenState :=
  let o := dispatchTool env aenv st name args
  match o.result with
  | .ok r => (r, o.state)
  | .error e => (errorEnvelope e.message, o.state)

/-- A token state holding all three fields, expiry already in the past at
time 1000000. -/
def stHeld : TokenState :=
  { accessToken := some "tok0", refreshToken := some "rt0",
    tokenExpiry := some (.valid 500) }

/-- A token state holding a token with a future expiry at time 1000000. -/
def stFresh : TokenState :=
  { accessToken := some "tok0", refreshToken := some "rt0",
    tokenExpiry := some (.valid 2000000) }

/-- An environment whose token endpoint answers refreshes successfully and
whose API succeeds on every call. -/
def envOkA : SpotifyEnv :=
  { now := 1000000
    refreshResp := .ok { access_token := "tok1", expires_in := 3600, refresh_token := some "rt1" }
    apiResp := fun _ => .success { text := "profile-json", id := "user1" } }

/-- C2: with a held access token whose recorded expiry is at or before the
current time, ensureValidToken makes exactly one refresh attempt; and when
the refresh token is held and the endpoint reports a positive lifetime, the
refreshed state's expiry is strictly later than the previous one. -/
theorem ensureValid_expired_refreshes_once
    (env : SpotifyEnv) (st : TokenState) (e : Int)
    (hTok : jsTruthy st.accessToken = true)
    (hExp : st.tokenExpiry = some (.valid e))
    (hPast : e ≤ env.now) :
    (ensureValidToken env st).2 = 1 ∧
    (∀ resp : RefreshResponse, jsTruthy st.refreshToken = true →
      env.refreshResp = .ok resp → 0 < resp.expires_in →
      ∃ st2, (ensureValidToken env st).1 = .ok st2 ∧
        st2.tokenExpiry = some (.valid (env.now + resp.expires_in * 1000)) ∧
        e < env.now + resp.expires_in * 1000) := by
  have hGe : nowGeExpiry env.now (JsDate.valid e) = true := by
    simp [nowGeExpiry, hPast]
  constructor
  · simp [ensureValidToken, hTok, hExp, hGe]
  · intro resp hRT hResp hPos
    refine ⟨{ accessToken := some resp.access_token
              refreshToken :=
                if jsTruthy resp.refresh_token then resp.refresh_token else st.refreshToken
              tokenExpiry := some (.valid (env.now + resp.expires_in * 1000)) }, ?_, rfl, ?_⟩
    · simp [ensureValidToken, hTok, hExp, hGe, refreshAccessToken, hRT, hResp]
    · omega

/-- C2 witness: the theorem at a concrete expired state and a refresh
response with lifetime 3600 s. -/
theorem ensureValid_expired_refreshes_once_witness :
    (ensureValidToken envOkA stHeld).2 = 1 ∧
    ∃ st2, (ensureValidToken envOkA stHeld).1 = .ok st2 ∧
      st2.tokenExpiry = some (.valid 4600000) ∧ (500 : Int) < 4600000 := by
  have h := ensureValid_expired_refreshes_once envOkA stHeld 500
    (by decide) (by decide) (by decide)
  refine ⟨h.1, ?_⟩
  obtain ⟨st2, h1, h2, -⟩ := h.2
    { access_token := "tok1", expires_in := 3600, refresh_token := some "rt1" }
    (by decide) rfl (by decide)
  exact ⟨st2, h1, by rw [h2]; decide, by decide⟩

/-- C3: a successful refresh with a held refresh token updates the access
token and expiry; a response carrying a (truthy) refresh token replaces the
held one, a response omitting it leaves the held one unchanged. -/
theorem refresh_preserves_or_replaces_refresh_token
    (env : SpotifyEnv) (st : TokenState) (resp : RefreshResponse)
    (hRT : jsTruthy st.refreshToken = true)
    (hResp : env.refreshResp = .ok resp) :
    ∃ st2, refreshAccessToken env st = .ok st2 ∧
      st2.accessToken = some resp.access_token ∧
      st2.tokenExpiry = some (.valid (env.now + resp.expires_in * 1000)) ∧
      (∀ nrt, resp.refresh_token = some nrt → nrt ≠ "" → st2.refreshToken = some nrt) ∧
      (resp.refresh_token = none → st2.refreshToken = st.refreshToken) := by
  refine ⟨{ accessToken := some resp.access_token
            refreshToken :=
              if jsTruthy resp.refresh_token then resp.refresh_token else st.refreshToken
            tokenExpiry := some (.valid (env.now + resp.expires_in * 1000)) },
    by simp [refreshAccessToken, hRT, hResp], rfl, rfl, ?_, ?_⟩
  · intro nrt hnew hne
    simp [hnew, jsTruthy, hne]
  · intro hnone
    simp [hnone, jsTruthy]

/-- An environment whose refresh responses omit the refresh token. -/
def envNoNewRT : SpotifyEnv :=
  { now := 1000000
    refreshResp := .ok { access_token := "tok1", expires_in := 3600, refresh_token := none }
    apiResp := fun _ => .success { text := "profile-json", id := "user1" } }

/-- C3 witness: the theorem at both a replacing response and an omitting
response, on concrete states. -/
theorem refresh_preserves_or_replaces_refresh_token_witness :
    (∃ st2, refreshAccessToken envOkA stHeld = .ok st2 ∧ st2.refreshToken = some "rt1") ∧
    (∃ st2, refreshAccessToken envNoNewRT stHeld = .ok st2 ∧ st2.refreshToken = some "rt0") := by
  constructor
  · obtain ⟨st2, hok, -, -, hrep, -⟩ := refresh_preserves_or_replaces_refresh_token
      envOkA stHeld { access_token := "tok1", expires_in := 3600, refresh_token := some "rt1" }
      (by decide) rfl
    exact ⟨st2, hok, hrep "rt1" rfl (by decide)⟩
  · obtain ⟨st2, hok, -, -, -, hpres⟩ := refresh_preserves_or_replaces_refresh_token
      envNoNewRT stHeld { access_token := "tok1", expires_in := 3600, refresh_token := none }
      (by decide) rfl
    exact ⟨st2, hok, by rw [hpres rfl]; decide⟩

/-- C5: loading a missing or corrupt token file leaves the fresh state
untouched (loadTokens is total, so nothing is raised), and ensureValidToken
on that state fails with the authenticate-first error instead of crashing,
attempting no refresh. -/
theorem load_absent_then_auth_required
    (env : SpotifyEnv) (f : TokenFile) (h : f = .missing ∨ f = .corrupt) :
    loadTokens f initialState = initialState ∧
    ensureValidToken env (loadTokens f initialState) =
      (.error "No access token. Please authenticate first using the spotify_authenticate tool.",
       0) := by
  rcases h with h | h <;> subst h <;> exact ⟨rfl, rfl⟩

/-- C5 witness: the theorem at a corrupt file and a concrete environment. -/
theorem load_absent_then_auth_required_witness :
    loadTokens .corrupt initialState = initialState ∧
    ensureValidToken envOkA (loadTokens .corrupt initialState) =
      (.error "No access token. Please authenticate first using the spotify_authenticate tool.",
       0) :=
  load_absent_then_auth_required envOkA .corrupt (Or.inr rfl)

/-- C9: with an access token held but the expiry null or an Invalid Date,
ensureValidToken returns the state unchanged and attempts no refresh,
whatever the current time and server environment. -/
theorem ensureValid_no_expiry_skips_refresh
    (env : SpotifyEnv) (st : TokenState)
    (hTok : jsTruthy st.accessToken = true)
    (hExp : st.tokenExpiry = none ∨ st.tokenExpiry = some .invalid) :
    ensureValidToken env st = (.ok st, 0) := by
  rcases hExp with h | h <;> simp [ensureValidToken, hTok, h, nowGeExpiry]

/-- A held token with no recorded expiry. -/
def stNoExpiry : TokenState :=
  { accessToken := some "tok0", refreshToken := some "rt0", tokenExpiry := none }

/-- A held token whose stored expiry failed to parse (Invalid Date). -/
def stInvalidExpiry : TokenState :=
  { accessToken := some "tok0", refreshToken := some "rt0", tokenExpiry := some .invalid }

/-- C9 witness: the theorem at a null expiry and at an Invalid Date. -/
theorem ensureValid_no_expiry_skips_refresh_witness :
    ensureValidToken envOkA stNoExpiry = (.ok stNoExpiry, 0) ∧
    ensureValidToken envOkA stInvalidExpiry = (.ok stInvalidExpiry, 0) :=
  ⟨ensureValid_no_expiry_skips_refresh envOkA stNoExpiry (by decide) (Or.inl rfl),
   ensureValid_no_expiry_skips_refresh envOkA stInvalidExpiry (by decide) (Or.inr rfl)⟩

/-- C1: when the locally valid token is rejected with a 401 and the refresh
endpoint answers, the gateway refreshes exactly once and retries exactly
once: a 200 retry returns that body, a second 401 surfaces as the axios
error of the retry — in both cases one refresh and two upstream calls, no
more. -/
theorem gateway_401_single_refresh_retry
    (env : SpotifyEnv) (st : TokenState) (endpoint : String)
    (resp : RefreshResponse) (m1 : String)
    (hEnsure : ensureValidToken env st = (.ok st, 0))
    (hRT : jsTruthy st.refreshToken = true)
    (hRefresh : env.refreshResp = .ok resp)
    (hFirst : env.apiResp 0 = .httpError 401 m1) :
    (∀ d, env.apiResp 1 = .success d →
      (makeSpotifyRequest env st endpoint).result = .ok d ∧
      (makeSpotifyRequest env st endpoint).refreshes = 1 ∧
      (makeSpotifyRequest env st endpoint).apiCalls = [endpoint, endpoint]) ∧
    (∀ m2, env.apiResp 1 = .httpError 401 m2 →
      (makeSpotifyRequest env st endpoint).result = .error (.axiosError (some 401) m2) ∧
      (makeSpotifyRequest env st endpoint).refreshes = 1 ∧
      (makeSpotifyRequest env st endpoint).apiCalls = [endpoint, endpoint]) := by
  constructor <;> intro x hx <;>
    simp [makeSpotifyRequest, hEnsure, hFirst, refreshAccessToken, hRT, hRefresh, hx]

/-- An environment answering 401 to the first API call and 200 to the
retry. -/
def env401Once : SpotifyEnv :=
  { now := 1000000
    refreshResp := .ok { access_token := "tok1", expires_in := 3600, refresh_token := some "rt1" }
    apiResp := fun i =>
      if i = 0 then .httpError 401 "Request failed with status code 401"
      else .success { text := "profile-json", id := "user1" } }

/-- An environment answering 401 to every API call. -/
def env401Twice : SpotifyEnv :=
  { now := 1000000
    refreshResp := .ok { access_token := "tok1", expires_in := 3600, refresh_token := some "rt1" }
    apiResp := fun _ => .httpError 401 "Request failed with status code 401" }

/-- C1 witness: the theorem on both concrete environments over a fresh
token. -/
theorem gateway_401_single_refresh_retry_witness :
    ((makeSpotifyRequest env401Once stFresh "/me").result =
        .ok { text := "profile-json", id := "user1" } ∧
      (makeSpotifyRequest env401Once stFresh "/me").refreshes = 1 ∧
      (makeSpotifyRequest env401Once stFresh "/me").apiCalls = ["/me", "/me"]) ∧
    ((makeSpotifyRequest env401Twice stFresh "/me").result =
        .error (.axiosError (some 401) "Request failed with status code 401") ∧
      (makeSpotifyRequest env401Twice stFresh "/me").refreshes = 1 ∧
      (makeSpotifyRequest env401Twice stFresh "/me").apiCalls = ["/me", "/me"]) := by
  constructor
  · exact (gateway_401_single_refresh_retry env401Once stFresh "/me"
      { access_token := "tok1", expires_in := 3600, refresh_token := some "rt1" }
      "Request failed with status code 401" (by decide) (by decide) rfl (by decide)).1
      { text := "profile-json", id := "user1" } (by decide)
  · exact (gateway_401_single_refresh_retry env401Twice stFresh "/me"
      { access_token := "tok1", expires_in := 3600, refresh_token := some "rt1" }
      "Request failed with status code 401" (by decide) (by decide) rfl (by decide)).2
      "Request failed with status code 401" (by decide)

/-- An authentication environment whose code exchange fails with a 500. -/
def aenvExchangeFail : AuthEnv :=
  { now := 1000000, callback := .code "authcode",
    exchangeResp := .error (.axiosError (some 500) "Request failed with status code 500") }

/-- An authentication environment whose code exchange succeeds. -/
def aenvOk : AuthEnv :=
  { now := 1000000, callback := .code "authcode",
    exchangeResp := .ok { access_token := "tokA", refresh_token := some "rtA",
                          expires_in := 3600 } }

/-- C7 counterexample: a concrete failed code exchange surfaces its error to
the waiting caller, yet the listener has not been closed when the caller's
promise settles — refuting the claim that the failure tears the listener
down. -/
theorem authenticate_exchange_failure_keeps_listener :
    (authenticate aenvExchangeFail stHeld).result =
      .error (.axiosError (some 500) "Request failed with status code 500") ∧
    ¬ (authenticate aenvExchangeFail stHeld).listenerClosed = true := by
  decide

/-- C7 as amended: a network failure or non-2xx answer to the code exchange
rejects the waiting caller with that error and leaves the token state
untouched, but does not close the listener (only the 5-minute global
timeout later reclaims it). -/
theorem authenticate_exchange_failure_surfaces_error
    (aenv : AuthEnv) (st : TokenState) (c : String) (e : SpotifyError)
    (hCb : aenv.callback = .code c)
    (hEx : aenv.exchangeResp = .error e) :
    authenticate aenv st =
      { result := .error e, state := st, listenerClosed := false } := by
  simp [authenticate, hCb, hEx]

/-- C7 witness: the amended theorem at the concrete failing exchange. -/
theorem authenticate_exchange_failure_surfaces_error_witness :
    authenticate aenvExchangeFail stHeld =
      { result := .error (.axiosError (some 500) "Request failed with status code 500")
        state := stHeld, listenerClosed := false } :=
  authenticate_exchange_failure_surfaces_error aenvExchangeFail stHeld "authcode"
    (.axiosError (some 500) "Request failed with status code 500") rfl rfl

/-- The forEach/append loop of getRecommendations, characterized: it is the
filterMap dropping nullish values and stringifying the rest (arrays joined
by commas). -/
theorem recommendationParams_eq_filterMap (params : Args) :
    recommendationParams params = params.filterMap recEntry := by
  suffices h : ∀ acc : List (String × String),
      params.foldl recAppend acc = acc ++ params.filterMap recEntry by
    simpa [recommendationParams] using h []
  induction params with
  | nil => intro acc; simp
  | cons kv rest ih =>
    intro acc
    obtain ⟨k, v⟩ := kv
    cases v <;>
      simp [List.foldl_cons, List.filterMap_cons, recAppend, recEntry,
        JsValue.isNullish, JsValue.toStr, ih]

/-- The arguments of the C6 scenario: a seed genre list and a target
energy, nothing else. -/
def recArgs : Args := [("seed_genres", .arr ["rock"]), ("target_energy", .prim "0.8")]

/-- C6 counterexample: at the scenario's arguments the upstream query is
exactly `seed_genres=rock&target_energy=0.8` — not that string extended by
the declared default limit — and no appended query pair has key `limit`, so
the default limit is not part of the query. -/
theorem recommendations_query_no_default_limit :
    recommendationsQuery recArgs = "seed_genres=rock&target_energy=0.8" ∧
    recommendationsQuery recArgs ≠ "seed_genres=rock&target_energy=0.8&limit=20" ∧
    ∀ p ∈ recommendationParams recArgs, p.1 ≠ "limit" := by
  decide

/-- C6 as amended: the scenario's query is exactly
`seed_genres=rock&target_energy=0.8`, with no default-limit component (the
schema's declared default is never applied by the handler), and in general
every query key was supplied by the caller, so unsupplied parameters are
omitted. -/
theorem recommendations_query_exact_and_omits_unsupplied :
    recommendationsQuery recArgs = "seed_genres=rock&target_energy=0.8" ∧
    recommendationParams recArgs = [("seed_genres", "rock"), ("target_energy", "0.8")] ∧
    (dispatchTool envOkA aenvOk stFresh "get_recommendations" recArgs).apiCalls =
      ["/recommendations?seed_genres=rock&target_energy=0.8"] ∧
    (∀ params : Args, ∀ k,
      k ∈ (recommendationParams params).map Prod.fst → k ∈ params.map Prod.fst) := by
  refine ⟨by decide, by decide, by decide, ?_⟩
  intro params k hk
  rw [recommendationParams_eq_filterMap] at hk
  obtain ⟨p, hp, hpk⟩ := List.mem_map.mp hk
  obtain ⟨kv, hkv, hE⟩ := List.mem_filterMap.mp hp
  by_cases hnull : kv.2.isNullish
  · simp [recEntry, hnull] at hE
  · have hE2 : recEntry kv = some (kv.1, kv.2.toStr) := by simp [recEntry, hnull]
    rw [hE2] at hE
    injection hE with hE
    subst hpk
    rw [← hE]
    exact List.mem_map.mpr ⟨kv, hkv, rfl⟩

/-- C6 witness: the amended theorem instantiated at the scenario input; no
limit key survives. -/
theorem recommendations_query_exact_and_omits_unsupplied_witness :
    recommendationsQuery recArgs = "seed_genres=rock&target_energy=0.8" ∧
    ¬ "limit" ∈ (recommendationParams recArgs).map Prod.fst := by
  refine ⟨recommendations_query_exact_and_omits_unsupplied.1, fun h => ?_⟩
  have := recommendations_query_exact_and_omits_unsupplied.2.2.2 recArgs "limit" h
  revert this
  decide

/-- C10: the recommendations handler forwards every supplied non-nullish
entry — whatever its key, even ones outside the declared schema, and
whatever its value, with no bound or maxItems check — joining arrays with
commas: the appended pair list is exactly the stringifying filterMap of the
arguments, and on a concrete argument object with an undeclared key, an
out-of-bounds limit and an over-long seed list every entry goes through. -/
theorem recommendations_forwards_all_supplied (params : Args) :
    recommendationParams params = params.filterMap recEntry ∧
    recommendationParams
      [("bogus_key", .prim "999"), ("limit", .prim "5000"),
       ("seed_tracks", .arr ["a", "b", "c", "d", "e", "f"]),
       ("dropped_null", .null), ("dropped_undefined", .undefined)] =
      [("bogus_key", "999"), ("limit", "5000"), ("seed_tracks", "a,b,c,d,e,f")] :=
  ⟨recommendationParams_eq_filterMap params, by decide⟩

/-- Every successful wrapJson result is a single text envelope. -/
theorem wrapJson_ok_shape (o : RequestOutcome) (r : ToolResult)
    (h : (wrapJson o).result = .ok r) : ∃ s, r = textEnvelope s := by
  cases ho : o.result with
  | ok d =>
    refine ⟨d.text, ?_⟩
    rw [wrapJson, ho] at h
    simp [Except.map] at h
    exact h.symm
  | error e =>
    rw [wrapJson, ho] at h
    simp [Except.map] at h

/-- Every successful authentication result is a single text envelope. -/
theorem authenticate_ok_shape (aenv : AuthEnv) (st : TokenState) (r : ToolResult)
    (h : (authenticate aenv st).result = .ok r) : ∃ s, r = textEnvelope s := by
  cases hcb : aenv.callback with
  | errorParam e => rw [authenticate, hcb] at h; simp at h
  | timeout => rw [authenticate, hcb] at h; simp at h
  | code c =>
    cases hex : aenv.exchangeResp with
    | error e => rw [authenticate, hcb] at h; simp [hex] at h
    | ok resp =>
      rw [authenticate, hcb] at h
      simp [hex] at h
      exact ⟨_, h.symm⟩

/-- Every successful getTrackFeatures result is a single text envelope. -/
theorem getTrackFeatures_ok_shape (env : SpotifyEnv) (st : TokenState)
    (tids : JsValue) (r : ToolResult)
    (h : (getTrackFeatures env st tids).result = .ok r) : ∃ s, r = textEnvelope s := by
  unfold getTrackFeatures at h
  cases hj : jsJoinComma tids with
  | error e => rw [hj] at h; simp at h
  | ok j => rw [hj] at h; exact wrapJson_ok_shape _ _ h


/-- Every successful createPlaylist result is a single text envelope. -/
theorem createPlaylist_ok_shape (env : SpotifyEnv) (st : TokenState) (r : ToolResult)
    (h : (createPlaylist env st).result = .ok r) : ∃ s, r = textEnvelope s := by
  simp only [createPlaylist] at h
  cases h1 : (makeSpotifyRequest env st "/me").result with
  | error e => rw [h1] at h; simp at h
  | ok profile =>
    rw [h1] at h
    simp only at h
    cases h2 : (makeSpotifyRequest (shiftEnv env (makeSpotifyRequest env st "/me").apiCalls.length)
        (makeSpotifyRequest env st "/me").state
        ("/users/" ++ profile.id ++ "/playlists")).result with
    | error e => rw [h2] at h; simp [Except.map] at h
    | ok d =>
      rw [h2] at h
      simp [Except.map] at h
      exact ⟨d.text, h.symm⟩

/-- Every successful dispatched handler result is a single text envelope. -/
theorem dispatchTool_ok_shape (env : SpotifyEnv) (aenv : AuthEnv) (st : TokenState)
    (name : String) (args : Args) (r : ToolResult)
    (h : (dispatchTool env aenv st name args).result = .ok r) : ∃ s, r = textEnvelope s := by
  rw [dispatchTool] at h
  by_cases h1 : name = "spotify_authenticate"
  · rw [if_pos h1] at h
    exact authenticate_ok_shape aenv st r h
  rw [if_neg h1] at h
  by_cases h2 : name = "get_user_profile"
  · rw [if_pos h2, getUserProfile] at h
    exact wrapJson_ok_shape _ _ h
  rw [if_neg h2] at h
  by_cases h3 : name = "get_top_tracks"
  · rw [if_pos h3] at h
    simp only [getTopTracks] at h
    exact wrapJson_ok_shape _ _ h
  rw [if_neg h3] at h
  by_cases h4 : name = "get_top_artists"
  · rw [if_pos h4] at h
    simp only [getTopArtists] at h
    exact wrapJson_ok_shape _ _ h
  rw [if_neg h4] at h
  by_cases h5 : name = "get_recently_played"
  · rw [if_pos h5] at h
    simp only [getRecentlyPlayed] at h
    exact wrapJson_ok_shape _ _ h
  rw [if_neg h5] at h
  by_cases h6 : name = "search_tracks"
  · rw [if_pos h6] at h
    simp only [searchTracks] at h
    exact wrapJson_ok_shape _ _ h
  rw [if_neg h6] at h
  by_cases h7 : name = "get_track_features"
  · rw [if_pos h7] at h
    exact getTrackFeatures_ok_shape env st _ r h
  rw [if_neg h7] at h
  by_cases h8 : name = "get_playlists"
  · rw [if_pos h8] at h
    simp only [getPlaylists] at h
    exact wrapJson_ok_shape _ _ h
  rw [if_neg h8] at h
  by_cases h9 : name = "get_playlist_tracks"
  · rw [if_pos h9] at h
    simp only [getPlaylistTracks] at h
    exact wrapJson_ok_shape _ _ h
  rw [if_neg h9] at h
  by_cases h10 : name = "create_playlist"
  · rw [if_pos h10] at h
    exact createPlaylist_ok_shape env st r h
  rw [if_neg h10] at h
  by_cases h11 : name = "add_tracks_to_playlist"
  · rw [if_pos h11, addTracksToPlaylist] at h
    exact wrapJson_ok_shape _ _ h
  rw [if_neg h11] at h
  by_cases h12 : name = "get_recommendations"
  · rw [if_pos h12, getRecommendations] at h
    exact wrapJson_ok_shape _ _ h
  rw [if_neg h12] at h
  simp at h

/-- C8: whatever the environment, state, tool name and arguments — handler
success or thrown failure alike — the dispatch boundary returns an envelope
holding exactly one content item, of type text with a string body. -/
theorem dispatch_always_single_text_envelope
    (env : SpotifyEnv) (aenv : AuthEnv) (st : TokenState) (name : String) (args : Args) :
    ∃ s, (handleCallTool env aenv st name args).1 =
      { content := [{ type := "text", text := s }] } := by
  rw [handleCallTool]
  cases hres : (dispatchTool env aenv st name args).result with
  | ok r =>
    obtain ⟨s, hs⟩ := dispatchTool_ok_shape env aenv st name args r hres
    exact ⟨s, by simp [hres, hs, textEnvelope]⟩
  | error e =>
    exact ⟨"Error: " ++ e.message, by simp [hres, errorEnvelope, textEnvelope]⟩

/-- C4: an invocation naming a tool outside the twelve registered names
produces the well-formed single-text unknown-tool error envelope with the
state untouched; and in general any error a handler raises is converted at
the dispatch boundary into the `Error: message` text envelope instead of
propagating. -/
theorem dispatch_unknown_tool_error_envelope
    (env : SpotifyEnv) (aenv : AuthEnv) (st : TokenState) (name : String) (args : Args) :
    (name ∉ toolNames →
      handleCallTool env aenv st name args =
        (errorEnvelope ("Unknown tool: " ++ name), st)) ∧
    (∀ e, (dispatchTool env aenv st name args).result = .error e →
      (handleCallTool env aenv st name args).1 = errorEnvelope e.message) := by
  constructor
  · intro hmem
    simp only [toolNames, List.mem_cons, List.not_mem_nil, or_false, not_or] at hmem
    obtain ⟨h1, h2, h3, h4, h5, h6, h7, h8, h9, h10, h11, h12⟩ := hmem
    rw [handleCallTool, dispatchTool, if_neg h1, if_neg h2, if_neg h3, if_neg h4,
      if_neg h5, if_neg h6, if_neg h7, if_neg h8, if_neg h9, if_neg h10, if_neg h11,
      if_neg h12]
    rfl
  · intro e he
    rw [handleCallTool]
    simp [he]

/-- C4 witness: the theorem at the unknown name of a concrete invocation;
both the envelope and the untouched state come out. -/
theorem dispatch_unknown_tool_error_envelope_witness :
    handleCallTool envOkA aenvOk stHeld "make_me_a_sandwich" [] =
      (errorEnvelope "Unknown tool: make_me_a_sandwich", stHeld) := by
  have h := (dispatch_unknown_tool_error_envelope envOkA aenvOk stHeld
    "make_me_a_sandwich" []).1 (by decide)
  exact h
